import Mathlib

/-!
Verification of the `ai-story-transformer` pipeline core
(`story_transformer.py`, `run.py`, `prompts.py`).

The pipeline is embedded shallowly:

* the Groq chat-completion service is an oracle `Svc` mapping the global
  call index, the prompt and the json-mode flag to either a raw response
  string or a `ServiceFault` (the exception raised by the client library);
* the observable external effects of a run (number of underlying service
  calls, `time.sleep` durations) are threaded through a `CallState`;
* Python exceptions raised by the transformer are values of `PyError`;
  the code defines the single class `TransformationError`, carrying a
  message, plus the interpreter-level `AttributeError` that `run.py` hits;
* `json.loads` is modelled by an executable JSON parser and pydantic
  model construction (`StoryEssence(**d)`, `StoryMap(**d)`) by executable
  validators that collect the names of missing or mistyped fields,
  all-or-nothing, mirroring pydantic `ValidationError` semantics.
-/

namespace StoryTransformerPipeline

/-- JSON values, the result of `json.loads`.  Objects keep key order;
duplicate keys are resolved last-wins at lookup time, as in Python. -/
inductive Json where
  | null : Json
  | bool (b : Bool) : Json
  | num (n : Int) : Json
  | str (s : String) : Json
  | arr (xs : List Json) : Json
  | obj (kvs : List (String × Json)) : Json

/-- Python `dict` lookup on an association list built by `json.loads`:
the last binding of a duplicated key wins. -/
def lookupKey (kvs : List (String × Json)) (k : String) : Option Json :=
  (kvs.reverse.find? (fun kv => kv.1 = k)).map (fun kv => kv.2)

/-! ### A small JSON parser (model of `json.loads`)

The parser covers the JSON fragment the pipeline exchanges with the
service: strings with the common escapes, integers, booleans, `null`,
arrays and objects, with arbitrary interleaved whitespace.  `json.loads`
fails on anything else; the parser returns `Except.error` with a
diagnostic in that case. -/

/-- Skip JSON insignificant whitespace. -/
def skipWs : List Char → List Char
  | c :: cs => if c = ' ' ∨ c = '\n' ∨ c = '\t' ∨ c = '\r' then skipWs cs else c :: cs
  | [] => []

/-- Parse the body of a JSON string literal, after the opening quote,
returning the decoded string and the rest of the input. -/
def parseStrBody : List Char → Option (String × List Char)
  | '"' :: cs => some ("", cs)
  | '\\' :: e :: cs =>
    let dec : Option Char :=
      if e = '"' then some '"'
      else if e = '\\' then some '\\'
      else if e = '/' then some '/'
      else if e = 'n' then some '\n'
      else if e = 't' then some '\t'
      else if e = 'r' then some '\r'
      else none
    match dec with
    | some d =>
      match parseStrBody cs with
      | some (s, rest) => some (String.mk (d :: s.toList), rest)
      | none => none
    | none => none
  | c :: cs =>
    match parseStrBody cs with
    | some (s, rest) => some (String.mk (c :: s.toList), rest)
    | none => none
  | [] => none

/-- Parse a run of decimal digits into a natural number accumulator. -/
def parseDigits : List Char → Nat → Option (Nat × List Char)
  | c :: cs, acc =>
    if c.isDigit then parseDigits cs (acc * 10 + (c.toNat - '0'.toNat))
    else some (acc, c :: cs)
  | [], acc => some (acc, [])

mutual

/-- Parse one JSON value.  `fuel` bounds the recursion depth; callers pass
the input length plus one, which suffices because every nested call
consumes at least one character first. -/
def parseVal : Nat → List Char → Option (Json × List Char)
  | 0, _ => none
  | fuel + 1, cs0 =>
    match skipWs cs0 with
    | '"' :: cs => match parseStrBody cs with
      | some (s, rest) => some (.str s, rest)
      | none => none
    | '[' :: cs =>
      (match skipWs cs with
       | ']' :: rest => some (.arr [], rest)
       | cs1 => match parseElems fuel cs1 with
         | some (xs, rest) => some (.arr xs, rest)
         | none => none)
    | '{' :: cs =>
      (match skipWs cs with
       | '}' :: rest => some (.obj [], rest)
       | cs1 => match parseMembers fuel cs1 with
         | some (kvs, rest) => some (.obj kvs, rest)
         | none => none)
    | 't' :: 'r' :: 'u' :: 'e' :: rest => some (.bool true, rest)
    | 'f' :: 'a' :: 'l' :: 's' :: 'e' :: rest => some (.bool false, rest)
    | 'n' :: 'u' :: 'l' :: 'l' :: rest => some (.null, rest)
    | '-' :: c :: cs =>
      if c.isDigit then
        match parseDigits (c :: cs) 0 with
        | some (n, rest) => some (.num (-(n : Int)), rest)
        | none => none
      else none
    | c :: cs =>
      if c.isDigit then
        match parseDigits (c :: cs) 0 with
        | some (n, rest) => some (.num (n : Int), rest)
        | none => none
      else none
    | [] => none

/-- Parse a nonempty comma-separated list of array elements, up to and
including the closing bracket. -/
def parseElems : Nat → List Char → Option (List Json × List Char)
  | 0, _ => none
  | fuel + 1, cs0 =>
    match parseVal fuel cs0 with
    | some (x, rest) =>
      (match skipWs rest with
       | ',' :: cs => match parseElems fuel cs with
         | some (xs, rest2) => some (x :: xs, rest2)
         | none => none
       | ']' :: cs => some ([x], cs)
       | _ => none)
    | none => none

/-- Parse a nonempty comma-separated list of object members, up to and
including the closing brace. -/
def parseMembers : Nat → List Char → Option (List (String × Json) × List Char)
  | 0, _ => none
  | fuel + 1, cs0 =>
    match skipWs cs0 with
    | '"' :: cs =>
      (match parseStrBody cs with
       | some (k, rest) =>
         (match skipWs rest with
          | ':' :: cs1 =>
            (match parseVal fuel cs1 with
             | some (v, rest2) =>
               (match skipWs rest2 with
                | ',' :: cs2 => match parseMembers fuel cs2 with
                  | some (kvs, rest3) => some ((k, v) :: kvs, rest3)
                  | none => none
                | '}' :: cs2 => some ([(k, v)], cs2)
                | _ => none)
             | none => none)
          | _ => none)
       | none => none)
    | _ => none

end

/-- Model of `json.loads`: parse a complete JSON document; trailing
content other than whitespace is an error, as in Python. -/
def parseJson (s : String) : Except String Json :=
  match parseVal (s.length + 1) s.toList with
  | some (j, rest) =>
    match skipWs rest with
    | [] => .ok j
    | _ => .error "Extra data"
  | none => .error "Expecting value"

/-! ### Data models (the pydantic `BaseModel` classes) -/

/-- `class Character(BaseModel)`: character extracted from the original
story. -/
structure Character where
  name : String
  archetype : String
  role : String
  motivation : String
  core_trait : String

/-- `class PlotBeat(BaseModel)`: a key story moment, described
abstractly. -/
structure PlotBeat where
  description : String
  narrative_function : String
  emotional_note : String

/-- `class StoryEssence(BaseModel)`: the setting-independent DNA of the
original story. -/
structure StoryEssence where
  title : String
  logline : String
  themes : List String
  characters : List Character
  plot_beats : List PlotBeat

/-- `class NewCharacter(BaseModel)`: character adapted to the new
setting. -/
structure NewCharacter where
  new_name : String
  original_name : String
  role_in_new_world : String
  description : String

/-- `class StoryMap(BaseModel)`: complete blueprint for the story in the
new setting.  The `setting` field is a plain `dict`, so its values stay
arbitrary JSON. -/
structure StoryMap where
  new_title : String
  new_logline : String
  characters : List NewCharacter
  setting : List (String × Json)
  plot_outline : List String

/-! ### Validators (model of pydantic `Model(**d)` construction)

Modelled from the spec: pydantic itself is an external library, so its
validation of `StoryEssence(**json.loads(response))` and
`StoryMap(**json.loads(response))` is embedded after the spec's Schema
Validator contract — check field presence and primitive type conformance,
fail with the list of missing or mistyped field locations, never return a
partially populated value.  Each `fieldErrs` function returns the
pydantic error locations for one field; a model validates successfully
exactly when every field's error list is empty. -/

/-- Error locations for a required `str` field. -/
def fieldErrsStr (kvs : List (String × Json)) (k : String) : List String :=
  match lookupKey kvs k with
  | some (.str _) => []
  | _ => [k]

/-- Error locations for a required `List[str]` field: the field must be a
JSON array and every element a string (`k.i` for a bad element `i`). -/
def fieldErrsStrList (kvs : List (String × Json)) (k : String) : List String :=
  match lookupKey kvs k with
  | some (.arr xs) =>
    (xs.enum.filterMap fun ix =>
      match ix.2 with
      | .str _ => none
      | _ => some (k ++ "." ++ toString ix.1))
  | _ => [k]

/-- Error locations for a required `dict` field. -/
def fieldErrsDict (kvs : List (String × Json)) (k : String) : List String :=
  match lookupKey kvs k with
  | some (.obj _) => []
  | _ => [k]

/-- Error locations for a required list-of-submodel field: the field must
be a JSON array of objects, and each object must satisfy the element
validator `f`; element errors are prefixed with `k.i.`. -/
def fieldErrsModelList (kvs : List (String × Json)) (k : String)
    (f : List (String × Json) → List String) : List String :=
  match lookupKey kvs k with
  | some (.arr xs) =>
    (xs.enum.map fun ix =>
      match ix.2 with
      | .obj sub => (f sub).map (fun e => k ++ "." ++ toString ix.1 ++ "." ++ e)
      | _ => [k ++ "." ++ toString ix.1]).flatten
  | _ => [k]

/-- Extract a `str` field, defaulting to `""`; only used once validation
has already succeeded, so the default is never observable. -/
def getStrD (kvs : List (String × Json)) (k : String) : String :=
  match lookupKey kvs k with
  | some (.str s) => s
  | _ => ""

/-- Extract an array field, defaulting to `[]`. -/
def getArrD (kvs : List (String × Json)) (k : String) : List Json :=
  match lookupKey kvs k with
  | some (.arr xs) => xs
  | _ => []

/-- Extract a `List[str]` field, defaulting missing entries to `""`. -/
def getStrListD (kvs : List (String × Json)) (k : String) : List String :=
  (getArrD kvs k).map fun j =>
    match j with
    | .str s => s
    | _ => ""

/-- Extract a `dict` field, defaulting to `\x7b\x7d`. -/
def getDictD (kvs : List (String × Json)) (k : String) : List (String × Json) :=
  match lookupKey kvs k with
  | some (.obj sub) => sub
  | _ => []

/-- Validation errors of `Character(**sub)`. -/
def Character.fieldErrs (kvs : List (String × Json)) : List String :=
  fieldErrsStr kvs "name" ++ fieldErrsStr kvs "archetype" ++
  fieldErrsStr kvs "role" ++ fieldErrsStr kvs "motivation" ++
  fieldErrsStr kvs "core_trait"

/-- Build a `Character` from an already validated object. -/
def Character.ofObjD (kvs : List (String × Json)) : Character :=
  ⟨getStrD kvs "name", getStrD kvs "archetype", getStrD kvs "role",
   getStrD kvs "motivation", getStrD kvs "core_trait"⟩

/-- Validation errors of `PlotBeat(**sub)`. -/
def PlotBeat.fieldErrs (kvs : List (String × Json)) : List String :=
  fieldErrsStr kvs "description" ++ fieldErrsStr kvs "narrative_function" ++
  fieldErrsStr kvs "emotional_note"

/-- Build a `PlotBeat` from an already validated object. -/
def PlotBeat.ofObjD (kvs : List (String × Json)) : PlotBeat :=
  ⟨getStrD kvs "description", getStrD kvs "narrative_function",
   getStrD kvs "emotional_note"⟩

/-- Build a `Character` from an arbitrary JSON value (validated side). -/
def Character.ofJsonD (j : Json) : Character :=
  match j with
  | .obj kvs => Character.ofObjD kvs
  | _ => ⟨"", "", "", "", ""⟩

/-- Build a `PlotBeat` from an arbitrary JSON value (validated side). -/
def PlotBeat.ofJsonD (j : Json) : PlotBeat :=
  match j with
  | .obj kvs => PlotBeat.ofObjD kvs
  | _ => ⟨"", "", ""⟩

/-- All validation error locations of `StoryEssence(**kvs)`, in field
declaration order, as pydantic reports them. -/
def StoryEssence.validationErrs (kvs : List (String × Json)) : List String :=
  fieldErrsStr kvs "title" ++ fieldErrsStr kvs "logline" ++
  fieldErrsStrList kvs "themes" ++
  fieldErrsModelList kvs "characters" Character.fieldErrs ++
  fieldErrsModelList kvs "plot_beats" PlotBeat.fieldErrs

/-- `StoryEssence(**kvs)`: all-or-nothing construction; on failure the
error carries every offending field location. -/
def StoryEssence.fromObj (kvs : List (String × Json)) :
    Except (List String) StoryEssence :=
  if StoryEssence.validationErrs kvs = [] then
    .ok ⟨getStrD kvs "title", getStrD kvs "logline", getStrListD kvs "themes",
         (getArrD kvs "characters").map Character.ofJsonD,
         (getArrD kvs "plot_beats").map PlotBeat.ofJsonD⟩
  else
    .error (StoryEssence.validationErrs kvs)

/-- Validation errors of `NewCharacter(**sub)`. -/
def NewCharacter.fieldErrs (kvs : List (String × Json)) : List String :=
  fieldErrsStr kvs "new_name" ++ fieldErrsStr kvs "original_name" ++
  fieldErrsStr kvs "role_in_new_world" ++ fieldErrsStr kvs "description"

/-- Build a `NewCharacter` from an already validated object. -/
def NewCharacter.ofObjD (kvs : List (String × Json)) : NewCharacter :=
  ⟨getStrD kvs "new_name", getStrD kvs "original_name",
   getStrD kvs "role_in_new_world", getStrD kvs "description"⟩

/-- Build a `NewCharacter` from an arbitrary JSON value. -/
def NewCharacter.ofJsonD (j : Json) : NewCharacter :=
  match j with
  | .obj kvs => NewCharacter.ofObjD kvs
  | _ => ⟨"", "", "", ""⟩

/-- All validation error locations of `StoryMap(**kvs)`. -/
def StoryMap.validationErrs (kvs : List (String × Json)) : List String :=
  fieldErrsStr kvs "new_title" ++ fieldErrsStr kvs "new_logline" ++
  fieldErrsModelList kvs "characters" NewCharacter.fieldErrs ++
  fieldErrsDict kvs "setting" ++
  fieldErrsStrList kvs "plot_outline"

/-- `StoryMap(**kvs)`: all-or-nothing construction. -/
def StoryMap.fromObj (kvs : List (String × Json)) :
    Except (List String) StoryMap :=
  if StoryMap.validationErrs kvs = [] then
    .ok ⟨getStrD kvs "new_title", getStrD kvs "new_logline",
         (getArrD kvs "characters").map NewCharacter.ofJsonD,
         getDictD kvs "setting", getStrListD kvs "plot_outline"⟩
  else
    .error (StoryMap.validationErrs kvs)

/-- Render a pydantic `ValidationError` as text, as interpolated by
`f"Failed to parse ... response: \x7be\x7d"`: the count of errors, the
model name, and the offending locations. -/
def renderValidationErrors (model : String) (errs : List String) : String :=
  toString errs.length ++ " validation errors for " ++ model ++ ": " ++
  String.intercalate ", " errs

/-! ### The service oracle and the observable call trace -/

/-- An exception raised by the underlying Groq client call
(`self.client.chat.completions.create`).  `className` is the Python
exception class (the spec groups them as `TransportError`,
`RateLimitError`, `ServiceError`); `msg` is `str(e)`, which is all the
transformer interpolates into its own messages. -/
structure ServiceFault where
  className : String
  msg : String
deriving DecidableEq

/-- The remote completion service as an oracle: from the global index of
the outbound call, the prompt, and the json-mode flag to either the
response text `response.choices[0].message.content` or a raised fault. -/
abbrev Svc := Nat → String → Bool → Except ServiceFault String

/-- Observable external effects of a run: how many underlying service
calls were issued, and the `time.sleep` durations in order. -/
structure CallState where
  calls : Nat
  slept : List Nat

/-- Python exceptions raised by the transformer code itself.
`story_transformer.py` defines the single class `TransformationError`;
`AttributeError` is raised by the interpreter when `run.py` accesses the
missing `run_pipeline` attribute. -/
inductive PyError where
  | transformationError (msg : String)
  | attributeError (msg : String)

/-! ### `StoryTransformer` class constants -/

def MODEL : String := "llama-3.3-70b-versatile"

def MAX_RETRIES : Nat := 3

def RETRY_DELAY : Nat := 2

/-- The retry loop of `_call_llm`: `for attempt in range(MAX_RETRIES)`.
`retriesLeft` counts the retries still available after the current
attempt, i.e. `retriesLeft = MAX_RETRIES - 1 - attempt`; the Python guard
`attempt < MAX_RETRIES - 1` (sleep and retry) is exactly
`retriesLeft > 0`.  Each service invocation bumps the call counter; each
retry first sleeps `RETRY_DELAY`; the final failed attempt raises
`TransformationError(f"API call failed after \x7bMAX_RETRIES\x7d attempts: \x7be\x7d")`. -/
def callLlmAux (svc : Svc) (prompt : String) (jsonMode : Bool) :
    Nat → CallState → Except PyError String × CallState
  | retriesLeft, st =>
    match svc st.calls prompt jsonMode, retriesLeft with
    | .ok resp, _ => (.ok resp, { st with calls := st.calls + 1 })
    | .error _, m + 1 =>
      callLlmAux svc prompt jsonMode m
        { calls := st.calls + 1, slept := st.slept ++ [RETRY_DELAY] }
    | .error e, 0 =>
      (.error (.transformationError
          ("API call failed after " ++ toString MAX_RETRIES ++ " attempts: " ++ e.msg)),
       { st with calls := st.calls + 1 })

/-- `StoryTransformer._call_llm(prompt, json_mode)`: send the prompt to
the service with the retry policy above (the loop enters its first
iteration with `MAX_RETRIES - 1` retries still available). -/
def callLlm (svc : Svc) (prompt : String) (jsonMode : Bool) (st : CallState) :
    Except PyError String × CallState :=
  callLlmAux svc prompt jsonMode (MAX_RETRIES - 1) st

/-! ### Prompt templates (`prompts.py`)

Each template is embedded already `.format`-rendered: the Python `\x7b\x7b`
and `\x7d\x7d` escapes appear as single braces, and each `\x7bplaceholder\x7d`
becomes a function argument spliced between the literal segments. -/

/-- `EXTRACTION_PROMPT.format(source_story=story)`. -/
def extractionPrompt (source_story : String) : String :=
  "\nYou are an expert literary analyst. Your goal is to distill a story down to its absolute essence so it can be transported to a new setting.\n\nAnalyze the given story: \"" ++
  source_story ++
  "\"\n\nReturn the result in the following strict JSON format:\n\x7b\n  \"title\": \"Story Title\",\n  \"logline\": \"A one-sentence summary...\",\n  \"themes\": [\"Theme 1\", \"Theme 2\"],\n  \"characters\": [\n    \x7b\n      \"name\": \"Original Name\",\n      \"archetype\": \"e.g. The Hero\",\n      \"role\": \"Protagonist\",\n      \"motivation\": \"Goal...\",\n      \"core_trait\": \"Main trait...\"\n    \x7d\n  ],\n  \"plot_beats\": [\n    \x7b\n      \"description\": \"Abstract description of event...\",\n      \"narrative_function\": \"e.g. Inciting Incident\",\n      \"emotional_note\": \"e.g. Hopeful\"\n    \x7d\n  ]\n\x7d\n\nEnsure the output is valid JSON. Do not include any text outside the JSON object.\n"

/-- `MAPPING_PROMPT.format(contract_json=..., target_context=...)`. -/
def mappingPrompt (contract_json : String) (target_context : String) : String :=
  "\nYou are a creative genius capable of reimagining stories in wild new contexts.\n\n**Source Material**:\n" ++
  contract_json ++
  "\n\n**Target Context**:\n\"" ++
  target_context ++
  "\"\n\n**Task**:\nMap the source material into the target context.\n1. Reimagine Characters: map each original character to a perfectly fitting equivalent.\n2. Reimagine Plot Beats: Translate abstract beats into specific events in the new setting.\n3. World Building: Define rules/locations.\n\nReturn the result in the following strict JSON format:\n\x7b\n  \"new_title\": \"The New Title\",\n  \"new_logline\": \"Updated logline...\",\n  \"characters\": [\n    \x7b\n      \"new_name\": \"New Name\",\n      \"original_name\": \"Original Name\",\n      \"role_in_new_world\": \"e.g. CEO\",\n      \"description\": \"Description...\"\n    \x7d\n  ],\n  \"setting\": \x7b\n    \"location\": \"Main location\",\n    \"rules\": \"Key world rules\"\n  \x7d,\n  \"plot_outline\": [\n    \"Scene 1 description...\",\n    \"Scene 2 description...\"\n  ]\n\x7d\n\nEnsure the output is valid JSON. Do not include any text outside the JSON object.\n"

/-- The shared header of every `GENERATION_PROMPTS[style]` template after
its opening line: title, context, character list and plot outline. -/
def generationHeader (new_title target_context characters_list plot_outline : String) : String :=
  "**Title**: " ++ new_title ++
  "\n**Context**: " ++ target_context ++
  "\n**Characters**:\n" ++ characters_list ++
  "\n\n**Plot Outline**:\n" ++ plot_outline ++
  "\n\n**Instructions**:\n"

/-- `GENERATION_PROMPTS["narrative"].format(...)`. -/
def narrativePrompt (new_title target_context characters_list plot_outline : String) : String :=
  "\nYou are a master storyteller. Write a compelling narrative based on the following reimagined plot.\n\n" ++
  generationHeader new_title target_context characters_list plot_outline ++
  "- Write in an engaging, vivid prose style with rich descriptions.\n- Use third-person narration with deep character introspection.\n- Include sensory details and emotional depth.\n- Ensure the emotional core of the original story shines through.\n- Length: Approximately 1000-1500 words.\n\nBegin the story now.\n"

/-- `GENERATION_PROMPTS["screenplay"].format(...)`. -/
def screenplayPrompt (new_title target_context characters_list plot_outline : String) : String :=
  "\nYou are a professional screenwriter. Write a screenplay adaptation based on the following reimagined plot.\n\n" ++
  generationHeader new_title target_context characters_list plot_outline ++
  "- Use proper screenplay format: SCENE HEADINGS (INT./EXT.), ACTION lines, CHARACTER names in caps before dialogue.\n- Write visual, cinematic descriptions.\n- Dialogue should be natural and reveal character.\n- Include parentheticals for acting directions sparingly.\n- Ensure the emotional core of the original story shines through.\n- Length: Approximately 8-12 scenes.\n\nBegin the screenplay now.\n"

/-- `GENERATION_PROMPTS["satirical"].format(...)`. -/
def satiricalPrompt (new_title target_context characters_list plot_outline : String) : String :=
  "\nYou are a satirical writer with a sharp wit. Write a comedic reimagining based on the following plot.\n\n" ++
  generationHeader new_title target_context characters_list plot_outline ++
  "- Use biting satire and observational comedy.\n- Exaggerate absurdities of the target context for comedic effect.\n- Include witty dialogue and ironic situations.\n- Break the fourth wall occasionally if appropriate.\n- The humor should have a point - satirize real issues in the target context.\n- Despite the comedy, maintain the emotional arc of the original story.\n- Length: Approximately 1000-1500 words.\n\nBegin the satirical story now.\n"

/-- `GENERATION_PROMPTS["epic"].format(...)`. -/
def epicPrompt (new_title target_context characters_list plot_outline : String) : String :=
  "\nYou are a bard crafting an epic tale. Write a grand, mythic narrative based on the following reimagined plot.\n\n" ++
  generationHeader new_title target_context characters_list plot_outline ++
  "- Write in an elevated, epic style reminiscent of classical literature.\n- Use rich metaphors, heroic language, and dramatic tension.\n- Characters should feel larger than life, their struggles universal.\n- Include moments of triumph, despair, and transcendence.\n- The prose should feel timeless and mythic.\n- Ensure the emotional core of the original story shines through magnificently.\n- Length: Approximately 1200-1800 words.\n\nBegin the epic tale now.\n"

/-- `GENERATION_PROMPTS[style].format(...)` for a style already checked
against the valid list. -/
def generationPrompt (style : String)
    (new_title target_context characters_list plot_outline : String) : String :=
  if style = "narrative" then narrativePrompt new_title target_context characters_list plot_outline
  else if style = "screenplay" then screenplayPrompt new_title target_context characters_list plot_outline
  else if style = "satirical" then satiricalPrompt new_title target_context characters_list plot_outline
  else epicPrompt new_title target_context characters_list plot_outline

/-! ### JSON serialization (model of `essence.model_dump_json(indent=2)`)

Modelled from the spec: pydantic serialization is external library code;
the spec only requires a stable, deterministic serialization of the
essence in field order.  The dump below follows `json.dumps(..., indent=2)`
formatting. -/

/-- Escape one character for a JSON string literal. -/
def jsonEscapeChar (c : Char) : String :=
  if c = '"' then "\\\""
  else if c = '\\' then "\\\\"
  else if c = '\n' then "\\n"
  else if c = '\t' then "\\t"
  else if c = '\r' then "\\r"
  else String.singleton c

/-- Render a JSON string literal. -/
def jsonStrLit (s : String) : String :=
  "\"" ++ String.join (s.toList.map jsonEscapeChar) ++ "\""

/-- `n` spaces. -/
def indentSp (n : Nat) : String :=
  String.mk (List.replicate n ' ')

mutual

/-- Render a JSON value at indentation level `ind`, in the style of
`json.dumps(v, indent=2)`. -/
def dumpJson (ind : Nat) : Json → String
  | .null => "null"
  | .bool b => if b then "true" else "false"
  | .num n => toString n
  | .str s => jsonStrLit s
  | .arr [] => "[]"
  | .arr (x :: xs) =>
    "[\n" ++ String.intercalate ",\n" (dumpJsonList (ind + 2) (x :: xs)) ++
    "\n" ++ indentSp ind ++ "]"
  | .obj [] => "\x7b\x7d"
  | .obj (kv :: kvs) =>
    "\x7b\n" ++ String.intercalate ",\n" (dumpJsonObj (ind + 2) (kv :: kvs)) ++
    "\n" ++ indentSp ind ++ "\x7d"

/-- Render array elements, each on its own indented line. -/
def dumpJsonList (ind : Nat) : List Json → List String
  | [] => []
  | x :: xs => (indentSp ind ++ dumpJson ind x) :: dumpJsonList ind xs

/-- Render object members, each on its own indented line. -/
def dumpJsonObj (ind : Nat) : List (String × Json) → List String
  | [] => []
  | (k, v) :: kvs =>
    (indentSp ind ++ jsonStrLit k ++ ": " ++ dumpJson ind v) :: dumpJsonObj ind kvs

end

/-- The JSON value of a `Character`, fields in declaration order. -/
def Character.toJsonVal (c : Character) : Json :=
  .obj [("name", .str c.name), ("archetype", .str c.archetype),
        ("role", .str c.role), ("motivation", .str c.motivation),
        ("core_trait", .str c.core_trait)]

/-- The JSON value of a `PlotBeat`, fields in declaration order. -/
def PlotBeat.toJsonVal (b : PlotBeat) : Json :=
  .obj [("description", .str b.description),
        ("narrative_function", .str b.narrative_function),
        ("emotional_note", .str b.emotional_note)]

/-- The JSON value of a `StoryEssence`, fields in declaration order. -/
def StoryEssence.toJsonVal (e : StoryEssence) : Json :=
  .obj [("title", .str e.title), ("logline", .str e.logline),
        ("themes", .arr (e.themes.map Json.str)),
        ("characters", .arr (e.characters.map Character.toJsonVal)),
        ("plot_beats", .arr (e.plot_beats.map PlotBeat.toJsonVal))]

/-- `essence.model_dump_json(indent=2)`. -/
def StoryEssence.modelDumpJson (e : StoryEssence) : String :=
  dumpJson 0 e.toJsonVal

/-! ### The three stages and the pipeline (`StoryTransformer`)

The `print` and `logger` statements of the source write to stdout or the
log only; they are not modelled.  Exceptions propagate as
`Except.error`. -/

/-- The ASCII whitespace characters Python `str.strip()` removes. -/
def pyIsSpace (c : Char) : Bool :=
  c = ' ' ∨ c = '\t' ∨ c = '\n' ∨ c = '\r' ∨ c = '\x0b' ∨ c = '\x0c'

/-- Python `s.strip()`: drop leading and trailing whitespace.  (`len` of
the result counts code points, which `String.length` matches.) -/
def pyStrip (s : String) : String :=
  String.mk (((s.toList.dropWhile pyIsSpace).reverse.dropWhile pyIsSpace).reverse)

/-- `StoryTransformer.extract(story)`: stage 1.  Guard
`if not story or len(story.strip()) < 50` (empty strings are falsy),
then one `_call_llm(prompt, json_mode=True)`, then
`StoryEssence(**json.loads(response))`, wrapping `JSONDecodeError` and
`ValidationError` into `TransformationError`. -/
def extract (svc : Svc) (story : String) (st : CallState) :
    Except PyError StoryEssence × CallState :=
  if story = "" ∨ (pyStrip story).length < 50 then
    (.error (.transformationError "Story text is too short or empty"), st)
  else
    let prompt := extractionPrompt story
    match callLlm svc prompt true st with
    | (.ok response, st1) =>
      (match parseJson response with
       | .ok (.obj kvs) =>
         (match StoryEssence.fromObj kvs with
          | .ok essence => (.ok essence, st1)
          | .error errs =>
            (.error (.transformationError
                ("Failed to parse extraction response: " ++
                 renderValidationErrors "StoryEssence" errs)), st1))
       | .ok _ =>
         (.error (.transformationError
             ("Failed to parse extraction response: " ++
              renderValidationErrors "StoryEssence" ["__root__"])), st1)
       | .error e =>
         (.error (.transformationError
             ("Failed to parse extraction response: " ++ e)), st1))
    | (.error e, st1) => (.error e, st1)

/-- `StoryTransformer.map_to_setting(essence, target)`: stage 2.  Guard
`if not target or len(target.strip()) < 3`, then one structured
`_call_llm` on the mapping prompt built from the serialized essence, then
`StoryMap(**json.loads(response))`. -/
def map_to_setting (svc : Svc) (essence : StoryEssence) (target : String)
    (st : CallState) : Except PyError StoryMap × CallState :=
  if target = "" ∨ (pyStrip target).length < 3 then
    (.error (.transformationError "Target setting is required"), st)
  else
    let prompt := mappingPrompt essence.modelDumpJson target
    match callLlm svc prompt true st with
    | (.ok response, st1) =>
      (match parseJson response with
       | .ok (.obj kvs) =>
         (match StoryMap.fromObj kvs with
          | .ok story_map => (.ok story_map, st1)
          | .error errs =>
            (.error (.transformationError
                ("Failed to parse mapping response: " ++
                 renderValidationErrors "StoryMap" errs)), st1))
       | .ok _ =>
         (.error (.transformationError
             ("Failed to parse mapping response: " ++
              renderValidationErrors "StoryMap" ["__root__"])), st1)
       | .error e =>
         (.error (.transformationError
             ("Failed to parse mapping response: " ++ e)), st1))
    | (.error e, st1) => (.error e, st1)

/-- `valid_styles` of `StoryTransformer.generate`. -/
def valid_styles : List String := ["narrative", "screenplay", "satirical", "epic"]

/-- The Python `repr` of `valid_styles`, as interpolated into the
invalid-style message by `f"Invalid style. Choose from: \x7bvalid_styles\x7d"`. -/
def pyStrListRepr (xs : List String) : String :=
  "[" ++ String.intercalate ", " (xs.map (fun s => "\x27" ++ s ++ "\x27")) ++ "]"

/-- `StoryTransformer.generate(story_map, target, style)`: stage 3.
Style guard, then a free-text `_call_llm` on the style-specific prompt
with the rendered character list and plot outline; the response is
returned verbatim (the word count is only printed). -/
def generate (svc : Svc) (story_map : StoryMap) (target : String)
    (style : String) (st : CallState) : Except PyError String × CallState :=
  if style ∉ valid_styles then
    (.error (.transformationError
        ("Invalid style. Choose from: " ++ pyStrListRepr valid_styles)), st)
  else
    let characters := String.intercalate "\n"
      (story_map.characters.map (fun c => "- " ++ c.new_name ++ ": " ++ c.description))
    let plot := String.intercalate "\n" story_map.plot_outline
    let prompt := generationPrompt style story_map.new_title target characters plot
    callLlm svc prompt false st

/-- The dict returned by `StoryTransformer.transform`, with its keys
`story`, `contract`, `map`, `style`. -/
structure TransformResult where
  story : String
  contract : StoryEssence
  map : StoryMap
  style : String

/-- `StoryTransformer.transform(story, target, style)`: the complete
three-stage pipeline.  Any stage exception propagates and aborts the
run. -/
def transform (svc : Svc) (story : String)
    (target : String := "Indian Education System")
    (style : String := "narrative") (st : CallState) :
    Except PyError TransformResult × CallState :=
  match extract svc story st with
  | (.ok essence, st1) =>
    (match map_to_setting svc essence target st1 with
     | (.ok story_map, st2) =>
       (match generate svc story_map target style st2 with
        | (.ok final_story, st3) =>
          (.ok ⟨final_story, essence, story_map, style⟩, st3)
        | (.error e, st3) => (.error e, st3))
     | (.error e, st2) => (.error e, st2))
  | (.error e, st1) => (.error e, st1)

/-! ### The CLI pipeline-invocation step (`run.py`, `main`, step 4)

`run.py` builds the transformer and then calls
`transformer.run_pipeline(source_text, args.target, style=style)` inside
`try: ... except Exception as e: print(...); sys.exit(1)`. -/

/-- The attribute names the `StoryTransformer` class body defines
(class-level constants and methods).  `run_pipeline` is not among
them, so attribute lookup raises `AttributeError`. -/
def storyTransformerAttrs : List String :=
  ["MODEL", "MAX_RETRIES", "RETRY_DELAY", "__init__", "_call_llm",
   "extract", "map_to_setting", "generate", "transform"]

/-- Outcome of `main`'s step 4: either control reaches `save_results`
with the pipeline results, or `sys.exit(code)` was called. -/
inductive MainOutcome where
  | saved (results : TransformResult)
  | exited (code : Nat)

/-- Step 4 of `run.py:main`: construct `StoryTransformer(api_key)` (its
`__init__` raises on a falsy key) and invoke
`transformer.run_pipeline(...)`; any exception is caught and turns into
`sys.exit(1)`.  The attribute lookup is modelled by membership in
`storyTransformerAttrs`; were `run_pipeline` present it would run the
pipeline `transform` embeds. -/
def mainPipelineStep (svc : Svc) (api_key source_text target style : String)
    (st : CallState) : MainOutcome × CallState :=
  if api_key = "" then (.exited 1, st)
  else if storyTransformerAttrs.contains "run_pipeline" then
    match transform svc source_text target style st with
    | (.ok results, st1) => (.saved results, st1)
    | (.error _, st1) => (.exited 1, st1)
  else (.exited 1, st)

/-! ### Concrete test data, mirroring the spec's end-to-end scenario -/

/-- A source story whose stripped length is well above 50 characters. -/
def storyW : String :=
  "Once upon a time a kind girl lived with her cruel stepmother and two spiteful stepsisters."

/-- Canned valid Essence JSON, as a mocked Adapter would return it. -/
def essJsonW : String :=
  "\x7b\"title\": \"Cinderella\", \"logline\": \"A girl rises.\", \"themes\": [\"hope\"], \"characters\": [\x7b\"name\": \"Cinderella\", \"archetype\": \"Underdog\", \"role\": \"Protagonist\", \"motivation\": \"Freedom\", \"core_trait\": \"Kindness\"\x7d], \"plot_beats\": [\x7b\"description\": \"A ball is announced\", \"narrative_function\": \"Setup\", \"emotional_note\": \"Hopeful\"\x7d]\x7d"

/-- Canned valid StoryMap JSON. -/
def mapJsonW : String :=
  "\x7b\"new_title\": \"Star Child\", \"new_logline\": \"A cadet rises.\", \"characters\": [\x7b\"new_name\": \"Nova\", \"original_name\": \"Cinderella\", \"role_in_new_world\": \"Cadet\", \"description\": \"A kind cadet\"\x7d], \"setting\": \x7b\"location\": \"Orbital ring\"\x7d, \"plot_outline\": [\"Scene 1\", \"Scene 2\"]\x7d"

/-- A mocked deterministic Adapter: canned Essence JSON on the first
call, canned StoryMap JSON on the second, canned prose afterwards. -/
def svcW : Svc := fun i _ _ =>
  if i = 0 then .ok essJsonW else if i = 1 then .ok mapJsonW else .ok "A grand epic tale."

/-- An Adapter returning the parseable JSON object `\x7b\x7d`, which is
missing every required field. -/
def svcEmptyObj : Svc := fun _ _ _ => .ok "\x7b\x7d"

/-- The `StoryEssence` value `essJsonW` validates to. -/
def essW : StoryEssence :=
  ⟨"Cinderella", "A girl rises.", ["hope"],
   [⟨"Cinderella", "Underdog", "Protagonist", "Freedom", "Kindness"⟩],
   [⟨"A ball is announced", "Setup", "Hopeful"⟩]⟩

/-- The `StoryMap` value `mapJsonW` validates to. -/
def mapW : StoryMap :=
  ⟨"Star Child", "A cadet rises.",
   [⟨"Nova", "Cinderella", "Cadet", "A kind cadet"⟩],
   [("location", .str "Orbital ring")], ["Scene 1", "Scene 2"]⟩

/-! ## Theorems -/

/-- Helper: whatever the service does, a failing `_call_llm` invocation
only ever produces the exhaustion-shaped `TransformationError`. -/
theorem callLlm_error_shape (svc : Svc) (prompt : String) (jm : Bool)
    (st st1 : CallState) (e : PyError)
    (h : callLlm svc prompt jm st = (.error e, st1)) :
    ∃ m, e = .transformationError ("API call failed after 3 attempts: " ++ m) := by
  cases h0 : svc st.calls prompt jm with
  | ok r => simp [callLlm, callLlmAux, MAX_RETRIES, h0] at h
  | error f1 =>
    cases h1 : svc (st.calls + 1) prompt jm with
    | ok r => simp [callLlm, callLlmAux, MAX_RETRIES, h0, h1] at h
    | error f2 =>
      cases h2 : svc (st.calls + 1 + 1) prompt jm with
      | ok r => simp [callLlm, callLlmAux, MAX_RETRIES, h0, h1, h2] at h
      | error f3 =>
        simp [callLlm, callLlmAux, MAX_RETRIES, h0, h1, h2] at h
        exact ⟨f3.msg, by rw [← h.1]; rfl⟩

/-- Helper: when the service's answer depends only on the prompt (a
deterministic Adapter), the outcome of `_call_llm` does not depend on
the starting call trace. -/
theorem callLlm_fst_state_indep (svc : Svc) (prompt : String) (jm : Bool)
    (hdet : ∀ i j, svc i prompt jm = svc j prompt jm) (st st2 : CallState) :
    (callLlm svc prompt jm st).1 = (callLlm svc prompt jm st2).1 := by
  cases h0 : svc st.calls prompt jm with
  | ok r =>
    have h0b : svc st2.calls prompt jm = .ok r := (hdet st2.calls st.calls).trans h0
    simp [callLlm, callLlmAux, MAX_RETRIES, h0, h0b]
  | error f1 =>
    have h0b : svc st2.calls prompt jm = .error f1 := (hdet st2.calls st.calls).trans h0
    cases h1 : svc (st.calls + 1) prompt jm with
    | ok r =>
      have h1b : svc (st2.calls + 1) prompt jm = .ok r := (hdet (st2.calls + 1) (st.calls + 1)).trans h1
      simp [callLlm, callLlmAux, MAX_RETRIES, h0, h0b, h1, h1b]
    | error f2 =>
      have h1b : svc (st2.calls + 1) prompt jm = .error f2 := (hdet (st2.calls + 1) (st.calls + 1)).trans h1
      cases h2 : svc (st.calls + 1 + 1) prompt jm with
      | ok r =>
        have h2b : svc (st2.calls + 1 + 1) prompt jm = .ok r := (hdet (st2.calls + 1 + 1) (st.calls + 1 + 1)).trans h2
        simp [callLlm, callLlmAux, MAX_RETRIES, h0, h0b, h1, h1b, h2, h2b]
      | error f3 =>
        have h2b : svc (st2.calls + 1 + 1) prompt jm = .error f3 := (hdet (st2.calls + 1 + 1) (st.calls + 1 + 1)).trans h2
        simp [callLlm, callLlmAux, MAX_RETRIES, h0, h0b, h1, h1b, h2, h2b]

/-- Claim C2: if the underlying service call fails on the first two
attempts and succeeds on the third, `_call_llm` returns the third
attempt's response, exactly three underlying service calls are made, and
the fixed delay `RETRY_DELAY` (2 seconds) is slept between consecutive
attempts. -/
theorem c2_call_llm_third_attempt (svc : Svc) (prompt : String) (jm : Bool)
    (st : CallState) (e1 e2 : ServiceFault) (r : String)
    (h0 : svc st.calls prompt jm = .error e1)
    (h1 : svc (st.calls + 1) prompt jm = .error e2)
    (h2 : svc (st.calls + 1 + 1) prompt jm = .ok r) :
    callLlm svc prompt jm st =
      (.ok r, ⟨st.calls + 1 + 1 + 1, st.slept ++ [RETRY_DELAY, RETRY_DELAY]⟩) := by
  simp [callLlm, callLlmAux, MAX_RETRIES, h0, h1, h2, List.append_assoc]

/-- Claim C2 witness: a concrete service that faults twice and then
answers; three calls, two sleeps of 2, third response returned. -/
theorem c2_witness :
    callLlm
      (fun i _ _ =>
        if i < 2 then .error ⟨"TransportError", "timeout"⟩ else .ok "prose")
      "p" true ⟨0, []⟩ = (.ok "prose", ⟨3, [2, 2]⟩) :=
  c2_call_llm_third_attempt
    (fun i _ _ =>
      if i < 2 then .error ⟨"TransportError", "timeout"⟩ else .ok "prose")
    "p" true ⟨0, []⟩ ⟨"TransportError", "timeout"⟩ ⟨"TransportError", "timeout"⟩
    "prose" rfl rfl rfl

/-- Claim C3: if the underlying service call fails on all `MAX_RETRIES`
attempts, `_call_llm` raises `TransformationError` wrapping the last
underlying error's text, after exactly `MAX_RETRIES` underlying calls. -/
theorem c3_call_llm_exhaustion (svc : Svc) (prompt : String) (jm : Bool)
    (st : CallState) (e1 e2 e3 : ServiceFault)
    (h0 : svc st.calls prompt jm = .error e1)
    (h1 : svc (st.calls + 1) prompt jm = .error e2)
    (h2 : svc (st.calls + 1 + 1) prompt jm = .error e3) :
    callLlm svc prompt jm st =
      (.error (.transformationError ("API call failed after 3 attempts: " ++ e3.msg)),
       ⟨st.calls + 1 + 1 + 1, st.slept ++ [RETRY_DELAY, RETRY_DELAY]⟩) := by
  simp [callLlm, callLlmAux, MAX_RETRIES, h0, h1, h2, List.append_assoc]
  rfl

/-- Claim C3 witness: a service that always faults; the adapter call
fails terminally with the wrapped last error after exactly 3 calls. -/
theorem c3_witness :
    callLlm (fun _ _ _ => .error ⟨"ServiceError", "HTTP 500"⟩) "p" true ⟨0, []⟩ =
      (.error (.transformationError "API call failed after 3 attempts: HTTP 500"),
       ⟨3, [2, 2]⟩) :=
  c3_call_llm_exhaustion (fun _ _ _ => .error ⟨"ServiceError", "HTTP 500"⟩)
    "p" true ⟨0, []⟩ ⟨"ServiceError", "HTTP 500"⟩ ⟨"ServiceError", "HTTP 500"⟩
    ⟨"ServiceError", "HTTP 500"⟩ rfl rfl rfl

/-- Claim C8 counterexample: the claim says the three underlying fault
classes are surfaced as distinct error types so callers can distinguish
them.  But `_call_llm` catches every exception uniformly and, after
exhaustion, raises the single class `TransformationError` interpolating
only `str(e)`: a `TransportError` fault and a `RateLimitError` fault with
the same text produce byte-identical adapter failures. -/
theorem c8_counterexample :
    (ServiceFault.mk "TransportError" "boom" ≠ ServiceFault.mk "RateLimitError" "boom") ∧
    callLlm (fun _ _ _ => .error ⟨"TransportError", "boom"⟩) "p" true ⟨0, []⟩ =
      callLlm (fun _ _ _ => .error ⟨"RateLimitError", "boom"⟩) "p" true ⟨0, []⟩ := by
  constructor
  · decide
  · rfl

/-- Claim C8 (amended): whatever fault class the underlying service
raises, a failing adapter invocation always surfaces the single error
kind `TransformationError`, with the retry-exhaustion message embedding
only the last fault's text — the three fault classes are not surfaced as
distinct error types and are not distinguishable by type. -/
theorem c8_amended_single_error_kind (svc : Svc) (prompt : String) (jm : Bool)
    (st st1 : CallState) (e : PyError)
    (h : callLlm svc prompt jm st = (.error e, st1)) :
    ∃ m, e = .transformationError ("API call failed after 3 attempts: " ++ m) :=
  callLlm_error_shape svc prompt jm st st1 e h

/-- Claim C8 (amended) witness: a rate-limit fault surfaces as the
generic exhaustion `TransformationError`. -/
theorem c8_amended_witness :
    ∃ m, PyError.transformationError "API call failed after 3 attempts: rate limited" =
      .transformationError ("API call failed after 3 attempts: " ++ m) :=
  c8_amended_single_error_kind
    (fun _ _ _ => .error ⟨"RateLimitError", "rate limited"⟩) "p" true
    ⟨0, []⟩ ⟨3, [2, 2]⟩
    (.transformationError "API call failed after 3 attempts: rate limited") rfl

/-- Claim C1: when Extract, Map and Generate all succeed, `transform`
returns exactly the dict `\x7bstory, contract, map, style\x7d` whose
entries are the Generate text, the Extract essence, the Map blueprint
and the style argument, unaltered, with the final call trace of the
Generate stage. -/
theorem c1_transform_aggregates (svc : Svc) (story target style : String)
    (st st1 st2 st3 : CallState) (essence : StoryEssence) (story_map : StoryMap)
    (final_story : String)
    (h1 : extract svc story st = (.ok essence, st1))
    (h2 : map_to_setting svc essence target st1 = (.ok story_map, st2))
    (h3 : generate svc story_map target style st2 = (.ok final_story, st3)) :
    transform svc story target style st =
      (.ok ⟨final_story, essence, story_map, style⟩, st3) := by
  simp [transform, h1, h2, h3]

set_option maxRecDepth 200000 in
/-- Claim C1 witness: the spec's end-to-end scenario with a mocked
Adapter; the aggregate carries the canned prose, the mocked essence and
map, and the style `"epic"`. -/
theorem c1_witness :
    transform svcW storyW "Space Opera" "epic" ⟨0, []⟩ =
      (.ok ⟨"A grand epic tale.", essW, mapW, "epic"⟩, ⟨3, []⟩) :=
  c1_transform_aggregates svcW storyW "Space Opera" "epic"
    ⟨0, []⟩ ⟨1, []⟩ ⟨2, []⟩ ⟨3, []⟩ essW mapW "A grand epic tale." rfl rfl rfl

/-- Claim C4: for every story whose stripped length is below 50
characters, Extract raises `TransformationError("Story text is too short
or empty")` with the call trace untouched — zero network calls. -/
theorem c4_extract_too_short (svc : Svc) (story : String) (st : CallState)
    (h : (pyStrip story).length < 50) :
    extract svc story st =
      (.error (.transformationError "Story text is too short or empty"), st) := by
  simp [extract, h]

/-- Claim C4 witness: a 10-character story fails fast with no calls. -/
theorem c4_witness :
    extract svcW "Too short." ⟨0, []⟩ =
      (.error (.transformationError "Story text is too short or empty"), ⟨0, []⟩) :=
  c4_extract_too_short svcW "Too short." ⟨0, []⟩ (by decide)

/-- Claim C5: for every target whose stripped length is below 3
characters, Map raises `TransformationError("Target setting is
required")` with the call trace untouched, whatever the essence. -/
theorem c5_map_short_target (svc : Svc) (essence : StoryEssence)
    (target : String) (st : CallState)
    (h : (pyStrip target).length < 3) :
    map_to_setting svc essence target st =
      (.error (.transformationError "Target setting is required"), st) := by
  simp [map_to_setting, h]

/-- Claim C5 witness: the 2-character target `"AI"` fails fast. -/
theorem c5_witness :
    map_to_setting svcW essW "AI" ⟨0, []⟩ =
      (.error (.transformationError "Target setting is required"), ⟨0, []⟩) :=
  c5_map_short_target svcW essW "AI" ⟨0, []⟩ (by decide)

/-- Claim C6: for every style outside
`["narrative", "screenplay", "satirical", "epic"]`, Generate raises
`TransformationError` whose message enumerates the valid set, with the
call trace untouched, for any story map and target. -/
theorem c6_generate_unknown_style (svc : Svc) (story_map : StoryMap)
    (target style : String) (st : CallState)
    (h : style ∉ valid_styles) :
    generate svc story_map target style st =
      (.error (.transformationError
        "Invalid style. Choose from: [\x27narrative\x27, \x27screenplay\x27, \x27satirical\x27, \x27epic\x27]"), st) := by
  simp [generate, h]
  rfl

/-- Claim C6 witness: the style `"haiku"` is rejected without a call. -/
theorem c6_witness :
    generate svcW mapW "Space Opera" "haiku" ⟨0, []⟩ =
      (.error (.transformationError
        "Invalid style. Choose from: [\x27narrative\x27, \x27screenplay\x27, \x27satirical\x27, \x27epic\x27]"), ⟨0, []⟩) :=
  c6_generate_unknown_style svcW mapW "Space Opera" "haiku" ⟨0, []⟩ (by decide)

/-- Claim C7: if the Adapter returns a parseable JSON object missing the
required field `plot_beats`, Extract fails with the validation error
naming `plot_beats`, after exactly one Adapter call, with no retry sleep,
and returns no (even partial) essence. -/
theorem c7_extract_schema_mismatch (svc : Svc) (story : String)
    (st : CallState) (response : String) (kvs : List (String × Json))
    (hstory : ¬(story = "" ∨ (pyStrip story).length < 50))
    (hcall : svc st.calls (extractionPrompt story) true = .ok response)
    (hparse : parseJson response = .ok (.obj kvs))
    (hmiss : lookupKey kvs "plot_beats" = none) :
    "plot_beats" ∈ StoryEssence.validationErrs kvs ∧
    extract svc story st =
      (.error (.transformationError ("Failed to parse extraction response: " ++
        renderValidationErrors "StoryEssence" (StoryEssence.validationErrs kvs))),
       ⟨st.calls + 1, st.slept⟩) := by
  have h5 : fieldErrsModelList kvs "plot_beats" PlotBeat.fieldErrs = ["plot_beats"] := by
    unfold fieldErrsModelList
    rw [hmiss]
  have hmem : "plot_beats" ∈ StoryEssence.validationErrs kvs := by
    simp [StoryEssence.validationErrs, h5]
  have hne : StoryEssence.validationErrs kvs ≠ [] := by
    intro h0
    rw [h0] at hmem
    exact absurd hmem (List.not_mem_nil _)
  refine ⟨hmem, ?_⟩
  have hcl : callLlm svc (extractionPrompt story) true st =
      (.ok response, ⟨st.calls + 1, st.slept⟩) := by
    simp [callLlm, callLlmAux, MAX_RETRIES, hcall]
  have hfrom : StoryEssence.fromObj kvs = .error (StoryEssence.validationErrs kvs) := by
    unfold StoryEssence.fromObj
    rw [if_neg hne]
  simp [extract, hstory, hcl, hparse, hfrom]

set_option maxRecDepth 200000 in
/-- Claim C7 witness: the Adapter answers with the parseable object
`\x7b\x7d`; Extract fails with a validation error naming `plot_beats`
after exactly one call. -/
theorem c7_witness :
    "plot_beats" ∈ StoryEssence.validationErrs [] ∧
    extract svcEmptyObj storyW ⟨0, []⟩ =
      (.error (.transformationError ("Failed to parse extraction response: " ++
        renderValidationErrors "StoryEssence" (StoryEssence.validationErrs []))),
       ⟨1, []⟩) :=
  c7_extract_schema_mismatch svcEmptyObj storyW ⟨0, []⟩ "\x7b\x7d" []
    (by decide) rfl rfl rfl

/-- Helper: with a deterministic Adapter, Extract's outcome does not
depend on the starting call trace. -/
theorem extract_fst_state_indep (svc : Svc)
    (hdet : ∀ i j p jm, svc i p jm = svc j p jm)
    (story : String) (st st2 : CallState) :
    (extract svc story st).1 = (extract svc story st2).1 := by
  by_cases hg : story = "" ∨ (pyStrip story).length < 50
  · simp [extract, hg]
  · have hfst : (callLlm svc (extractionPrompt story) true st).1 =
        (callLlm svc (extractionPrompt story) true st2).1 :=
      callLlm_fst_state_indep svc _ true (fun i j => hdet i j _ _) st st2
    rcases hc1 : callLlm svc (extractionPrompt story) true st with ⟨r1, s1⟩
    rcases hc2 : callLlm svc (extractionPrompt story) true st2 with ⟨r2, s2⟩
    rw [hc1, hc2] at hfst
    simp only at hfst
    subst hfst
    cases r1 with
    | error e => simp [extract, hg, hc1, hc2]
    | ok response =>
      rcases hp : parseJson response with e | j
      · simp [extract, hg, hc1, hc2, hp]
      · cases j with
        | obj kvs =>
          rcases hf : StoryEssence.fromObj kvs with errs | ess <;>
            simp [extract, hg, hc1, hc2, hp, hf]
        | null => simp [extract, hg, hc1, hc2, hp]
        | bool b => simp [extract, hg, hc1, hc2, hp]
        | num n => simp [extract, hg, hc1, hc2, hp]
        | str s => simp [extract, hg, hc1, hc2, hp]
        | arr xs => simp [extract, hg, hc1, hc2, hp]

/-- Helper: with a deterministic Adapter, Map's outcome does not depend
on the starting call trace. -/
theorem map_fst_state_indep (svc : Svc)
    (hdet : ∀ i j p jm, svc i p jm = svc j p jm)
    (essence : StoryEssence) (target : String) (st st2 : CallState) :
    (map_to_setting svc essence target st).1 =
      (map_to_setting svc essence target st2).1 := by
  by_cases hg : target = "" ∨ (pyStrip target).length < 3
  · simp [map_to_setting, hg]
  · have hfst : (callLlm svc (mappingPrompt essence.modelDumpJson target) true st).1 =
        (callLlm svc (mappingPrompt essence.modelDumpJson target) true st2).1 :=
      callLlm_fst_state_indep svc _ true (fun i j => hdet i j _ _) st st2
    rcases hc1 : callLlm svc (mappingPrompt essence.modelDumpJson target) true st with ⟨r1, s1⟩
    rcases hc2 : callLlm svc (mappingPrompt essence.modelDumpJson target) true st2 with ⟨r2, s2⟩
    rw [hc1, hc2] at hfst
    simp only at hfst
    subst hfst
    cases r1 with
    | error e => simp [map_to_setting, hg, hc1, hc2]
    | ok response =>
      rcases hp : parseJson response with e | j
      · simp [map_to_setting, hg, hc1, hc2, hp]
      · cases j with
        | obj kvs =>
          rcases hf : StoryMap.fromObj kvs with errs | sm <;>
            simp [map_to_setting, hg, hc1, hc2, hp, hf]
        | null => simp [map_to_setting, hg, hc1, hc2, hp]
        | bool b => simp [map_to_setting, hg, hc1, hc2, hp]
        | num n => simp [map_to_setting, hg, hc1, hc2, hp]
        | str s => simp [map_to_setting, hg, hc1, hc2, hp]
        | arr xs => simp [map_to_setting, hg, hc1, hc2, hp]

/-- Helper: with a deterministic Adapter, Generate's outcome does not
depend on the starting call trace. -/
theorem generate_fst_state_indep (svc : Svc)
    (hdet : ∀ i j p jm, svc i p jm = svc j p jm)
    (story_map : StoryMap) (target style : String) (st st2 : CallState) :
    (generate svc story_map target style st).1 =
      (generate svc story_map target style st2).1 := by
  by_cases hg : style ∉ valid_styles
  · simp [generate, hg]
  · simp only [generate, hg, if_false]
    exact callLlm_fst_state_indep svc _ false (fun i j => hdet i j _ _) st st2

/-- Helper: with a deterministic Adapter, the pipeline outcome does not
depend on the starting call trace. -/
theorem transform_fst_state_indep (svc : Svc)
    (hdet : ∀ i j p jm, svc i p jm = svc j p jm)
    (story target style : String) (st st2 : CallState) :
    (transform svc story target style st).1 =
      (transform svc story target style st2).1 := by
  rcases he1 : extract svc story st with ⟨r1, s1⟩
  rcases he2 : extract svc story st2 with ⟨r2, s2⟩
  have hre : r1 = r2 := by
    have h := extract_fst_state_indep svc hdet story st st2
    rw [he1, he2] at h
    exact h
  subst hre
  cases r1 with
  | error e => simp [transform, he1, he2]
  | ok essence =>
    rcases hm1 : map_to_setting svc essence target s1 with ⟨m1, t1⟩
    rcases hm2 : map_to_setting svc essence target s2 with ⟨m2, t2⟩
    have hrm : m1 = m2 := by
      have h := map_fst_state_indep svc hdet essence target s1 s2
      rw [hm1, hm2] at h
      exact h
    subst hrm
    cases m1 with
    | error e => simp [transform, he1, he2, hm1, hm2]
    | ok story_map =>
      rcases hg1 : generate svc story_map target style t1 with ⟨g1, u1⟩
      rcases hg2 : generate svc story_map target style t2 with ⟨g2, u2⟩
      have hrg : g1 = g2 := by
        have h := generate_fst_state_indep svc hdet story_map target style t1 t2
        rw [hg1, hg2] at h
        exact h
      subst hrg
      cases g1 with
      | error e => simp [transform, he1, he2, hm1, hm2, hg1, hg2]
      | ok final_story => simp [transform, he1, he2, hm1, hm2, hg1, hg2]

/-- Claim C9: with a deterministic Adapter (the same prompt always yields
the same response) observed identically by both runs, running the
pipeline twice with identical story, target and style inputs — from any
two points of the call history — yields byte-identical pipeline
results. -/
theorem c9_transform_two_runs (svc1 svc2 : Svc) (story target style : String)
    (st1 st2 : CallState)
    (hdet : ∀ i j p jm, svc1 i p jm = svc1 j p jm)
    (hagree : ∀ i p jm, svc1 i p jm = svc2 i p jm) :
    (transform svc1 story target style st1).1 =
      (transform svc2 story target style st2).1 := by
  have hs : svc1 = svc2 :=
    funext fun i => funext fun p => funext fun jm => hagree i p jm
  subst hs
  exact transform_fst_state_indep svc1 hdet story target style st1 st2

/-- Claim C9 witness: two runs of the pipeline against the same
deterministic stub, the second starting where the first left off,
produce the same outcome. -/
theorem c9_witness :
    (transform (fun _ _ _ => .ok "x") storyW "Space Opera" "narrative" ⟨0, []⟩).1 =
      (transform (fun _ _ _ => .ok "x") storyW "Space Opera" "narrative" ⟨3, []⟩).1 :=
  c9_transform_two_runs (fun _ _ _ => .ok "x") (fun _ _ _ => .ok "x")
    storyW "Space Opera" "narrative" ⟨0, []⟩ ⟨3, []⟩
    (fun _ _ _ _ => rfl) (fun _ _ _ => rfl)

/-- Claim C10: `run.py` invokes `transformer.run_pipeline(...)`, but the
`StoryTransformer` class defines no such attribute, so for every
execution the pipeline-invocation step raises before any stage runs, the
handler reports failure, and the process exits with status 1, with zero
underlying service calls. -/
theorem c10_run_pipeline_missing (svc : Svc)
    (api_key source_text target style : String) (st : CallState) :
    storyTransformerAttrs.contains "run_pipeline" = false ∧
    mainPipelineStep svc api_key source_text target style st = (.exited 1, st) := by
  refine ⟨rfl, ?_⟩
  unfold mainPipelineStep
  by_cases h : api_key = "" <;> simp [h]
  exact fun hmem => absurd hmem (by decide)

end StoryTransformerPipeline
